import Mathlib

/-!
Shallow embedding of the fixed-supply token issuance program
(`src/lib.rs`, `process_instruction`).

The program's own logic (lines 47-158 of `lib.rs`) is embedded faithfully:
the overflow-checked supply computation, the extraction of five accounts,
the precondition checks in source order, the two delegated SPL-token
invocations (`mint_to`, then `set_authority` to `None`), and the final
re-read of the mint that asserts the authority was revoked.

The SPL token program itself is an external collaborator: the two delegated
calls are modelled by an abstract `Collaborator` record whose operations may
succeed (returning updated mint / token-account state) or fail with any
error.  Executions record a trace of the delegated calls that were attempted,
and return the final account states together with the program result.
-/

set_option autoImplicit false

/-- Public keys, abstracted to natural numbers. -/
abbrev Pubkey := Nat

/-- `spl_token::id()`: the (fixed, well-known) key of the SPL token program.
The concrete value is irrelevant; only comparisons against it matter. -/
def spl_token_id : Pubkey := 1000

/-- `const TOTAL_SUPPLY: u64 = 500_000_000` (lib.rs line 21). -/
def TOTAL_SUPPLY : Nat := 500000000

/-- `const DECIMALS: u8 = 9` (lib.rs line 23). -/
def DECIMALS : Nat := 9

/-- Largest value representable in a `u64`. -/
def U64_MAX : Nat := 2 ^ 64 - 1

/-- `u64::checked_mul`: `some` of the product when it fits in 64 bits,
`none` on overflow. -/
def checked_mul_u64 (a b : Nat) : Option Nat :=
  if a * b ≤ U64_MAX then some (a * b) else none

/-- `u64::pow` (wrapping at 2^64; for the exponents used here no wrap occurs). -/
def pow_u64 (b e : Nat) : Nat := (b ^ e) % 2 ^ 64

/-- The `solana_program::program_error::ProgramError` variants this program
can produce, plus `Custom` for the program's own error codes. -/
inductive ProgramError where
  | MissingRequiredSignature
  | IllegalOwner
  | InvalidAccountData
  | InvalidArgument
  | NotEnoughAccountKeys
  | Custom (code : Nat)
deriving DecidableEq, Repr

/-- `enum CustomError` (lib.rs lines 27-33). -/
inductive CustomError where
  | InvalidMintState
  | TokenAccountNotEmpty
  | MintAuthorityNotRevoked
  | TokenAccountOwnerMismatch
  | MintAuthorityMismatch
deriving DecidableEq, Repr

/-- The numeric discriminants of `CustomError`: `InvalidMintState = 6000`,
and the remaining variants are numbered sequentially after it. -/
def CustomError.code : CustomError → Nat
  | .InvalidMintState => 6000
  | .TokenAccountNotEmpty => 6001
  | .MintAuthorityNotRevoked => 6002
  | .TokenAccountOwnerMismatch => 6003
  | .MintAuthorityMismatch => 6004

/-- `impl From<CustomError> for ProgramError` (lib.rs lines 35-39). -/
def CustomError.toProgramError (e : CustomError) : ProgramError :=
  ProgramError.Custom e.code

/-- `spl_token::state::Mint`, restricted to the fields this program reads.
`mint_authority` and `freeze_authority` are `COption<Pubkey>` in the source,
modelled as `Option Pubkey`. -/
structure Mint where
  mint_authority : Option Pubkey
  supply : Nat
  decimals : Nat
  is_initialized : Bool
  freeze_authority : Option Pubkey
deriving DecidableEq, Repr

/-- `spl_token::state::Account` (a token account), restricted to the fields
this program reads. -/
structure TokenAccount where
  mint : Pubkey
  owner : Pubkey
  amount : Nat
  delegate : Option Pubkey
  close_authority : Option Pubkey
deriving DecidableEq, Repr

/-- The contents of an account's data buffer, as far as this program can
interpret it: a packed `Mint`, a packed token `Account`, or anything else. -/
inductive AccountData where
  | mintData (m : Mint)
  | tokenData (t : TokenAccount)
  | otherData
deriving DecidableEq, Repr

/-- `solana_program::account_info::AccountInfo`, restricted to the fields
this program reads: key, signer and writability flags, owning program, and
the data buffer. -/
structure AccountInfo where
  key : Pubkey
  is_signer : Bool
  is_writable : Bool
  owner : Pubkey
  data : AccountData
deriving DecidableEq, Repr

/-- Modelled from the spec: the collaborator's `readMint` operation, which
the program reaches through `Mint::unpack` on the account's data buffer.
It yields the stored mint state; on a buffer that does not hold a mint it
fails (the deserialization wire format itself is out of scope). -/
def unpackMint : AccountData → Except ProgramError Mint
  | .mintData m => .ok m
  | _ => .error .InvalidAccountData

/-- Modelled from the spec: the collaborator's `readTokenAccount` operation,
reached through `TokenAccount::unpack`; yields the stored token-account
state, failing on a buffer that does not hold a token account. -/
def unpackTokenAccount : AccountData → Except ProgramError TokenAccount
  | .tokenData t => .ok t
  | _ => .error .InvalidAccountData

/-- The mint-state precondition (lib.rs lines 89-93): initialized, expected
decimals, zero supply, no freeze authority, and the mint authority equal to
the provided authority key. -/
def mintStateOk (m : Mint) (authority_key : Pubkey) : Bool :=
  m.is_initialized
    && m.decimals == DECIMALS
    && m.supply == 0
    && m.freeze_authority.isNone
    && m.mint_authority == some authority_key

/-- The token-account emptiness precondition (lib.rs lines 105-108): bound to
the given mint, zero balance, no delegate, no close authority. -/
def tokenStateOk (t : TokenAccount) (mint_key : Pubkey) : Bool :=
  t.mint == mint_key
    && t.amount == 0
    && t.delegate.isNone
    && t.close_authority.isNone

/-- Modelled from the spec: the external token-management collaborator
(the SPL token program reached via `invoke`).  `mintTo` is the delegated
`mint_to` call: given the current mint and destination state, the authority
key and the amount, it either fails or returns updated mint and destination
state.  `revokeMintAuthority` is the delegated `set_authority(.., None,
MintTokens, ..)` call: it either fails or returns updated mint state.
The record is arbitrary, so a collaborator that misbehaves (for example
reports success without clearing the authority) is representable. -/
structure Collaborator where
  mintTo : Mint → TokenAccount → Pubkey → Nat → Except ProgramError (Mint × TokenAccount)
  revokeMintAuthority : Mint → Pubkey → Except ProgramError Mint

/-- One delegated invocation, as recorded in an execution's trace. -/
inductive DelegatedCall where
  | mintTo (mint dest authority : Pubkey) (amount : Nat)
  | setAuthorityNone (mint authority : Pubkey)
deriving DecidableEq, Repr

/-- The observable outcome of one execution of `process_instruction`:
the program result (`none` = success, `some e` = failure with `e`), the
final states of all accounts, and the trace of attempted delegated calls. -/
structure Outcome where
  result : Option ProgramError
  accounts : List AccountInfo
  calls : List DelegatedCall
deriving DecidableEq, Repr

/-- The data validated by lib.rs lines 52-111, carried into the
mint-and-revoke transition. -/
structure Validated where
  total_supply_with_decimals : Nat
  mint_account : AccountInfo
  token_account : AccountInfo
  mint_authority : AccountInfo
  payer : AccountInfo
  token_program : AccountInfo
  rest : List AccountInfo
  mint_data : Mint
  token_data : TokenAccount
deriving DecidableEq, Repr

/-- Step A (lib.rs lines 53-55): `TOTAL_SUPPLY.checked_mul(10u64.pow(DECIMALS))
.ok_or(ProgramError::InvalidArgument)`, generalized over the multiplicand so
the overflow branch can be stated. -/
def total_supply_calc (total_supply : Nat) : Except ProgramError Nat :=
  match checked_mul_u64 total_supply (pow_u64 10 DECIMALS) with
  | some v => .ok v
  | none => .error .InvalidArgument

/-- Lib.rs lines 57-111 after Step A: extraction of the five accounts (the
five `next_account_info` calls; a shorter list exhausts the iterator and
yields `NotEnoughAccountKeys`) followed by the precondition checks, in
source order with early returns. -/
def validateAccounts (total : Nat) (accounts : List AccountInfo) :
    Except ProgramError Validated :=
  match accounts with
  | mint_account :: token_account :: mint_authority :: payer :: token_program :: rest =>
    if !mint_authority.is_signer || !payer.is_signer then
      .error .MissingRequiredSignature
    else if mint_authority.key != payer.key then
      .error CustomError.MintAuthorityMismatch.toProgramError
    else if mint_account.owner != spl_token_id || token_account.owner != spl_token_id then
      .error .IllegalOwner
    else if !mint_account.is_writable || !token_account.is_writable then
      .error .InvalidAccountData
    else
      match unpackMint mint_account.data with
      | .error e => .error e
      | .ok mint_data =>
        if !(mintStateOk mint_data mint_authority.key) then
          .error CustomError.InvalidMintState.toProgramError
        else
          match unpackTokenAccount token_account.data with
          | .error e => .error e
          | .ok token_data =>
            if token_data.owner != payer.key then
              .error CustomError.TokenAccountOwnerMismatch.toProgramError
            else if !(tokenStateOk token_data mint_account.key) then
              .error CustomError.TokenAccountNotEmpty.toProgramError
            else
              .ok ⟨total, mint_account, token_account, mint_authority, payer,
                   token_program, rest, mint_data, token_data⟩
  | _ => .error .NotEnoughAccountKeys

/-- Lib.rs lines 52-111: Step A followed by account extraction and all
precondition checks. -/
def validate (accounts : List AccountInfo) : Except ProgramError Validated :=
  match total_supply_calc TOTAL_SUPPLY with
  | .error e => .error e
  | .ok total => validateAccounts total accounts

/-- Lib.rs lines 113-157: the delegated `mint_to` (Step B), the delegated
`set_authority(None)` (Step C), and the final re-read of the mint asserting
the authority is gone (Step D).  A failed delegated call aborts with its
error; its effects are not applied (the hosting runtime rolls back a failed
inner invocation). -/
def executeTransition (collab : Collaborator) (accounts : List AccountInfo)
    (v : Validated) : Outcome :=
  match collab.mintTo v.mint_data v.token_data v.mint_authority.key
      v.total_supply_with_decimals with
  | .error e =>
    ⟨some e, accounts,
     [DelegatedCall.mintTo v.mint_account.key v.token_account.key
       v.mint_authority.key v.total_supply_with_decimals]⟩
  | .ok (mint1, token1) =>
    match collab.revokeMintAuthority mint1 v.mint_authority.key with
    | .error e =>
      ⟨some e,
       { v.mint_account with data := AccountData.mintData mint1 } ::
         { v.token_account with data := AccountData.tokenData token1 } ::
         v.mint_authority :: v.payer :: v.token_program :: v.rest,
       [DelegatedCall.mintTo v.mint_account.key v.token_account.key
         v.mint_authority.key v.total_supply_with_decimals,
        DelegatedCall.setAuthorityNone v.mint_account.key v.mint_authority.key]⟩
    | .ok mint2 =>
      match unpackMint (AccountData.mintData mint2) with
      | .error e =>
        ⟨some e,
         { v.mint_account with data := AccountData.mintData mint2 } ::
           { v.token_account with data := AccountData.tokenData token1 } ::
           v.mint_authority :: v.payer :: v.token_program :: v.rest,
         [DelegatedCall.mintTo v.mint_account.key v.token_account.key
           v.mint_authority.key v.total_supply_with_decimals,
          DelegatedCall.setAuthorityNone v.mint_account.key v.mint_authority.key]⟩
      | .ok final_mint_data =>
        if final_mint_data.mint_authority.isSome then
          ⟨some CustomError.MintAuthorityNotRevoked.toProgramError,
           { v.mint_account with data := AccountData.mintData mint2 } ::
             { v.token_account with data := AccountData.tokenData token1 } ::
             v.mint_authority :: v.payer :: v.token_program :: v.rest,
           [DelegatedCall.mintTo v.mint_account.key v.token_account.key
             v.mint_authority.key v.total_supply_with_decimals,
            DelegatedCall.setAuthorityNone v.mint_account.key v.mint_authority.key]⟩
        else
          ⟨none,
           { v.mint_account with data := AccountData.mintData mint2 } ::
             { v.token_account with data := AccountData.tokenData token1 } ::
             v.mint_authority :: v.payer :: v.token_program :: v.rest,
           [DelegatedCall.mintTo v.mint_account.key v.token_account.key
             v.mint_authority.key v.total_supply_with_decimals,
            DelegatedCall.setAuthorityNone v.mint_account.key v.mint_authority.key]⟩

/-- `process_instruction` (lib.rs lines 47-158), parameterized by the
collaborator implementing the two delegated calls.  `_program_id` and
`_instruction_data` are unused in the source and omitted. -/
def process_instruction (collab : Collaborator) (accounts : List AccountInfo) :
    Outcome :=
  match validate accounts with
  | .error e => ⟨some e, accounts, []⟩
  | .ok v => executeTransition collab accounts v

/-- The mint state readable from an outcome's first account. -/
def headMintData : List AccountInfo → Option Mint
  | a :: _ =>
    match a.data with
    | .mintData m => some m
    | _ => none
  | [] => none

/-- The token-account state readable from an outcome's second account. -/
def destTokenData : List AccountInfo → Option TokenAccount
  | _ :: a :: _ =>
    match a.data with
    | .tokenData t => some t
    | _ => none
  | _ => none

/-- Modelled from the spec: an honest collaborator obeying the §6 contract.
`mint` adds exactly the requested amount to the mint's supply and the
destination's balance, failing when the authority does not match;
`revokeMintAuthority` clears the authority, failing when the caller does not
hold it. -/
def specCollaborator : Collaborator where
  mintTo := fun m t authority amount =>
    if m.mint_authority == some authority then
      .ok ({ m with supply := m.supply + amount }, { t with amount := t.amount + amount })
    else
      .error (.Custom 4)
  revokeMintAuthority := fun m authority =>
    if m.mint_authority == some authority then
      .ok { m with mint_authority := none }
    else
      .error (.Custom 4)

/-- A misbehaving collaborator whose revoke call reports success without
clearing the mint authority (the defense-in-depth scenario of Step D). -/
def stubbornCollaborator : Collaborator where
  mintTo := specCollaborator.mintTo
  revokeMintAuthority := fun m _ => .ok m

/-- A collaborator whose delegated mint call always fails. -/
def failMintCollaborator : Collaborator where
  mintTo := fun _ _ _ _ => .error (.Custom 77)
  revokeMintAuthority := specCollaborator.revokeMintAuthority

/-- Concrete keys for the executable scenarios. -/
def authKey : Pubkey := 7

def mintKey : Pubkey := 11

def destKey : Pubkey := 12

/-- A mint in the expected entry state of Scenario A. -/
def happyMint : Mint :=
  { mint_authority := some authKey, supply := 0, decimals := DECIMALS
    is_initialized := true, freeze_authority := none }

/-- A destination token account in the expected entry state of Scenario A. -/
def happyToken : TokenAccount :=
  { mint := mintKey, owner := authKey, amount := 0
    delegate := none, close_authority := none }

def mintAccount : AccountInfo :=
  { key := mintKey, is_signer := false, is_writable := true
    owner := spl_token_id, data := .mintData happyMint }

def destAccount : AccountInfo :=
  { key := destKey, is_signer := false, is_writable := true
    owner := spl_token_id, data := .tokenData happyToken }

def authorityAccount : AccountInfo :=
  { key := authKey, is_signer := true, is_writable := false
    owner := 1, data := .otherData }

def payerAccount : AccountInfo :=
  { key := authKey, is_signer := true, is_writable := false
    owner := 1, data := .otherData }

def programAccount : AccountInfo :=
  { key := spl_token_id, is_signer := false, is_writable := false
    owner := 1, data := .otherData }

/-- The Scenario A account list: mint, destination, authority, payer
(same identity as the authority), token program. -/
def happyAccounts : List AccountInfo :=
  [mintAccount, destAccount, authorityAccount, payerAccount, programAccount]

/-- The `Validated` record produced by the Scenario A account list. -/
def happyValidated : Validated :=
  ⟨500000000000000000, mintAccount, destAccount, authorityAccount, payerAccount,
   programAccount, [], happyMint, happyToken⟩

/-- The mint after a successful delegated mint of the full supply. -/
def mintedMint : Mint := { happyMint with supply := 500000000000000000 }

/-- The destination after a successful delegated mint of the full supply. -/
def mintedToken : TokenAccount := { happyToken with amount := 500000000000000000 }

def noSigPayerAccount : AccountInfo := { payerAccount with is_signer := false }

/-- Scenario A except the payer did not sign. -/
def noSigAccounts : List AccountInfo :=
  [mintAccount, destAccount, authorityAccount, noSigPayerAccount, programAccount]

/-- A payer whose identity differs from the mint authority's. -/
def otherPayerAccount : AccountInfo := { payerAccount with key := 8 }

/-- Scenario B's mint: as Scenario A but with `supply = 100` at entry. -/
def supply100Mint : Mint := { happyMint with supply := 100 }

def supply100MintAccount : AccountInfo :=
  { mintAccount with data := .mintData supply100Mint }

/-- Scenario C's destination: as Scenario A but with a delegate present. -/
def delegatedToken : TokenAccount := { happyToken with delegate := some 99 }

def delegatedDestAccount : AccountInfo :=
  { destAccount with data := .tokenData delegatedToken }

def unsignedAuthorityAccount : AccountInfo :=
  { authorityAccount with is_signer := false }

/-- A mint account not owned by the SPL token program. -/
def foreignMintAccount : AccountInfo := { mintAccount with owner := 5 }

def foreignUnwritableMintAccount : AccountInfo :=
  { foreignMintAccount with is_writable := false }

def unwritableSupply100MintAccount : AccountInfo :=
  { supply100MintAccount with is_writable := false }

/-- A destination owned by someone other than the payer. -/
def otherOwnerToken : TokenAccount := { happyToken with owner := 42 }

def otherOwnerDestAccount : AccountInfo :=
  { destAccount with data := .tokenData otherOwnerToken }

def otherOwnerDelegatedToken : TokenAccount :=
  { otherOwnerToken with delegate := some 99 }

def otherOwnerDelegatedDest : AccountInfo :=
  { destAccount with data := .tokenData otherOwnerDelegatedToken }

/-- With the fixed constants, Step A always yields the same scaled total. -/
theorem validate_eq_validateAccounts (accounts : List AccountInfo) :
    validate accounts = validateAccounts 500000000000000000 accounts := rfl

/-- A validation failure makes `process_instruction` return that error with
the accounts untouched and no delegated call attempted. -/
theorem process_of_validate_error (collab : Collaborator) (accounts : List AccountInfo)
    (e : ProgramError) (h : validate accounts = Except.error e) :
    process_instruction collab accounts = ⟨some e, accounts, []⟩ := by
  unfold process_instruction
  rw [h]

/-- A successful validation hands control to the mint-and-revoke transition. -/
theorem process_of_validate_ok (collab : Collaborator) (accounts : List AccountInfo)
    (v : Validated) (h : validate accounts = Except.ok v) :
    process_instruction collab accounts = executeTransition collab accounts v := by
  unfold process_instruction
  rw [h]

theorem unpackMint_error_eq (d : AccountData) (e : ProgramError)
    (h : unpackMint d = Except.error e) : e = ProgramError.InvalidAccountData := by
  cases d <;> simp_all [unpackMint]

theorem unpackTokenAccount_error_eq (d : AccountData) (e : ProgramError)
    (h : unpackTokenAccount d = Except.error e) : e = ProgramError.InvalidAccountData := by
  cases d <;> simp_all [unpackTokenAccount]

/-- The boolean mint-state check, phrased as the conjunction the spec lists. -/
theorem mintStateOk_iff (m : Mint) (k : Pubkey) :
    mintStateOk m k = true ↔
      (m.is_initialized = true ∧ m.decimals = DECIMALS ∧ m.supply = 0 ∧
       m.freeze_authority = none ∧ m.mint_authority = some k) := by
  simp [mintStateOk, Option.isNone_iff_eq_none, and_assoc]

/-- The boolean token-account check, phrased as the conjunction the spec lists. -/
theorem tokenStateOk_iff (t : TokenAccount) (k : Pubkey) :
    tokenStateOk t k = true ↔
      (t.mint = k ∧ t.amount = 0 ∧ t.delegate = none ∧ t.close_authority = none) := by
  simp [tokenStateOk, Option.isNone_iff_eq_none, and_assoc]

theorem validate_missing_sig (ma ta auth py tp : AccountInfo) (rest : List AccountInfo)
    (h : auth.is_signer = false ∨ py.is_signer = false) :
    validate (ma :: ta :: auth :: py :: tp :: rest) =
      Except.error ProgramError.MissingRequiredSignature := by
  rw [validate_eq_validateAccounts]
  unfold validateAccounts
  rcases h with h | h <;> simp [h]

theorem validate_authority_mismatch (ma ta auth py tp : AccountInfo) (rest : List AccountInfo)
    (h1 : auth.is_signer = true) (h2 : py.is_signer = true) (hk : auth.key ≠ py.key) :
    validate (ma :: ta :: auth :: py :: tp :: rest) =
      Except.error CustomError.MintAuthorityMismatch.toProgramError := by
  rw [validate_eq_validateAccounts]
  unfold validateAccounts
  simp [h1, h2, hk]

theorem validate_illegal_owner (ma ta auth py tp : AccountInfo) (rest : List AccountInfo)
    (h1 : auth.is_signer = true) (h2 : py.is_signer = true) (hk : auth.key = py.key)
    (ho : ma.owner ≠ spl_token_id ∨ ta.owner ≠ spl_token_id) :
    validate (ma :: ta :: auth :: py :: tp :: rest) =
      Except.error ProgramError.IllegalOwner := by
  rw [validate_eq_validateAccounts]
  unfold validateAccounts
  rcases ho with ho | ho <;> simp [h1, h2, hk, ho]

theorem validate_not_writable (ma ta auth py tp : AccountInfo) (rest : List AccountInfo)
    (h1 : auth.is_signer = true) (h2 : py.is_signer = true) (hk : auth.key = py.key)
    (ho1 : ma.owner = spl_token_id) (ho2 : ta.owner = spl_token_id)
    (hw : ma.is_writable = false ∨ ta.is_writable = false) :
    validate (ma :: ta :: auth :: py :: tp :: rest) =
      Except.error ProgramError.InvalidAccountData := by
  rw [validate_eq_validateAccounts]
  unfold validateAccounts
  rcases hw with hw | hw <;> simp [h1, h2, hk, ho1, ho2, hw]

theorem validate_invalid_mint_state (ma ta auth py tp : AccountInfo) (rest : List AccountInfo)
    (m : Mint)
    (h1 : auth.is_signer = true) (h2 : py.is_signer = true) (hk : auth.key = py.key)
    (ho1 : ma.owner = spl_token_id) (ho2 : ta.owner = spl_token_id)
    (hw1 : ma.is_writable = true) (hw2 : ta.is_writable = true)
    (hd : ma.data = AccountData.mintData m)
    (hm : mintStateOk m auth.key = false) :
    validate (ma :: ta :: auth :: py :: tp :: rest) =
      Except.error CustomError.InvalidMintState.toProgramError := by
  rw [validate_eq_validateAccounts]
  unfold validateAccounts
  rw [hk] at hm
  simp [h1, h2, hk, ho1, ho2, hw1, hw2, hd, unpackMint, hm]

theorem validate_dest_owner_mismatch (ma ta auth py tp : AccountInfo) (rest : List AccountInfo)
    (m : Mint) (t : TokenAccount)
    (h1 : auth.is_signer = true) (h2 : py.is_signer = true) (hk : auth.key = py.key)
    (ho1 : ma.owner = spl_token_id) (ho2 : ta.owner = spl_token_id)
    (hw1 : ma.is_writable = true) (hw2 : ta.is_writable = true)
    (hd : ma.data = AccountData.mintData m)
    (hm : mintStateOk m auth.key = true)
    (htd : ta.data = AccountData.tokenData t)
    (hto : t.owner ≠ py.key) :
    validate (ma :: ta :: auth :: py :: tp :: rest) =
      Except.error CustomError.TokenAccountOwnerMismatch.toProgramError := by
  rw [validate_eq_validateAccounts]
  unfold validateAccounts
  rw [hk] at hm
  simp [h1, h2, hk, ho1, ho2, hw1, hw2, hd, unpackMint, hm, unpackTokenAccount, htd, hto]

theorem validate_dest_not_empty (ma ta auth py tp : AccountInfo) (rest : List AccountInfo)
    (m : Mint) (t : TokenAccount)
    (h1 : auth.is_signer = true) (h2 : py.is_signer = true) (hk : auth.key = py.key)
    (ho1 : ma.owner = spl_token_id) (ho2 : ta.owner = spl_token_id)
    (hw1 : ma.is_writable = true) (hw2 : ta.is_writable = true)
    (hd : ma.data = AccountData.mintData m)
    (hm : mintStateOk m auth.key = true)
    (htd : ta.data = AccountData.tokenData t)
    (hto : t.owner = py.key)
    (hts : tokenStateOk t ma.key = false) :
    validate (ma :: ta :: auth :: py :: tp :: rest) =
      Except.error CustomError.TokenAccountNotEmpty.toProgramError := by
  rw [validate_eq_validateAccounts]
  unfold validateAccounts
  rw [hk] at hm
  simp [h1, h2, hk, ho1, ho2, hw1, hw2, hd, unpackMint, hm, unpackTokenAccount, htd, hto, hts]

/-- A successful validation pins the scaled total and guarantees the mint's
supply and the destination's balance are zero at entry. -/
theorem validate_ok_inv (accounts : List AccountInfo) (v : Validated)
    (h : validate accounts = Except.ok v) :
    v.total_supply_with_decimals = 500000000000000000 ∧
    v.mint_data.supply = 0 ∧ v.token_data.amount = 0 := by
  rw [validate_eq_validateAccounts] at h
  unfold validateAccounts at h
  split at h
  · rename_i ma ta auth py tp rest
    split at h
    · exact Except.noConfusion h
    split at h
    · exact Except.noConfusion h
    split at h
    · exact Except.noConfusion h
    split at h
    · exact Except.noConfusion h
    split at h
    · exact Except.noConfusion h
    rename_i mint_data hmd
    split at h
    · exact Except.noConfusion h
    rename_i hmok
    split at h
    · exact Except.noConfusion h
    rename_i token_data htd
    split at h
    · exact Except.noConfusion h
    split at h
    · exact Except.noConfusion h
    rename_i htok
    injection h with h
    subst h
    refine ⟨rfl, ?_, ?_⟩
    · have hb : mintStateOk mint_data auth.key = true := by
        simpa using hmok
      exact ((mintStateOk_iff mint_data auth.key).mp hb).2.2.1
    · have hb : tokenStateOk token_data ma.key = true := by
        simpa using htok
      exact ((tokenStateOk_iff token_data ma.key).mp hb).2.1
  · exact Except.noConfusion h

/-- A failing delegated mint call makes the whole transition fail with that
error, leaves the accounts untouched, and never attempts the revoke call. -/
theorem executeTransition_mint_fail (collab : Collaborator) (accounts : List AccountInfo)
    (v : Validated) (e : ProgramError)
    (h : collab.mintTo v.mint_data v.token_data v.mint_authority.key
      v.total_supply_with_decimals = Except.error e) :
    executeTransition collab accounts v =
      ⟨some e, accounts,
       [DelegatedCall.mintTo v.mint_account.key v.token_account.key
         v.mint_authority.key v.total_supply_with_decimals]⟩ := by
  unfold executeTransition
  rw [h]

theorem specCollaborator_mintTo_def (m : Mint) (t : TokenAccount) (a : Pubkey) (amt : Nat) :
    specCollaborator.mintTo m t a amt =
      if m.mint_authority == some a then
        Except.ok ({ m with supply := m.supply + amt }, { t with amount := t.amount + amt })
      else
        Except.error (.Custom 4) := rfl

theorem specCollaborator_revoke_def (m : Mint) (a : Pubkey) :
    specCollaborator.revokeMintAuthority m a =
      if m.mint_authority == some a then
        Except.ok { m with mint_authority := none }
      else
        Except.error (.Custom 4) := rfl

/-- The honest collaborator obeys the exact-amount part of the §6 contract. -/
theorem specCollaborator_mint_contract :
    ∀ m t a amt m' t', specCollaborator.mintTo m t a amt = Except.ok (m', t') →
      m'.supply = m.supply + amt ∧ t'.amount = t.amount + amt := by
  intro m t a amt m' t' h
  rw [specCollaborator_mintTo_def] at h
  split at h
  · simp only [Except.ok.injEq, Prod.mk.injEq] at h
    obtain ⟨h1, h2⟩ := h
    subst h1
    subst h2
    exact ⟨rfl, rfl⟩
  · exact Except.noConfusion h

/-- The honest collaborator's revoke call does not change the supply. -/
theorem specCollaborator_revoke_contract :
    ∀ m a m', specCollaborator.revokeMintAuthority m a = Except.ok m' →
      m'.supply = m.supply := by
  intro m a m' h
  rw [specCollaborator_revoke_def] at h
  split at h
  · injection h with h
    subst h
    rfl
  · exact Except.noConfusion h

/-- C1: for every execution of `process_instruction` that returns success,
the destination's amount equals `TOTAL_SUPPLY * 10 ^ DECIMALS`
(= 500_000_000_000_000_000) exactly, the mint's supply equals the same
value, and the mint's authority is `none`.  The two hypotheses are the §6
contract of the delegated collaborator: a successful `mint` adds exactly
the requested amount, and a successful revoke does not change the supply. -/
theorem C1_exact_amount_on_success (collab : Collaborator) (accounts : List AccountInfo)
    (hmc : ∀ m t a amt m' t', collab.mintTo m t a amt = Except.ok (m', t') →
      m'.supply = m.supply + amt ∧ t'.amount = t.amount + amt)
    (hrc : ∀ m a m', collab.revokeMintAuthority m a = Except.ok m' → m'.supply = m.supply)
    (h : (process_instruction collab accounts).result = none) :
    ∃ m t, headMintData (process_instruction collab accounts).accounts = some m ∧
      destTokenData (process_instruction collab accounts).accounts = some t ∧
      m.supply = TOTAL_SUPPLY * 10 ^ DECIMALS ∧
      t.amount = TOTAL_SUPPLY * 10 ^ DECIMALS ∧
      m.mint_authority = none ∧
      TOTAL_SUPPLY * 10 ^ DECIMALS = 500000000000000000 := by
  cases hv : validate accounts with
  | error e =>
      rw [process_of_validate_error collab accounts e hv] at h
      exact absurd h (by simp)
  | ok v =>
      obtain ⟨hvt, hvs, hva⟩ := validate_ok_inv accounts v hv
      rw [process_of_validate_ok collab accounts v hv] at h ⊢
      unfold executeTransition at h ⊢
      cases hm : collab.mintTo v.mint_data v.token_data v.mint_authority.key
          v.total_supply_with_decimals with
      | error e => simp [hm] at h
      | ok p =>
          obtain ⟨mint1, token1⟩ := p
          obtain ⟨hm1, ht1⟩ := hmc _ _ _ _ _ _ hm
          cases hr : collab.revokeMintAuthority mint1 v.mint_authority.key with
          | error e => simp [hm, hr] at h
          | ok mint2 =>
              have hm2 := hrc _ _ _ hr
              cases hma : mint2.mint_authority with
              | some k => simp [hm, hr, unpackMint, hma] at h
              | none =>
                  simp only [hm, hr, unpackMint, hma, Option.isSome_none,
                    Bool.false_eq_true, if_false]
                  refine ⟨mint2, token1, ?_, ?_, ?_, ?_, hma,
                    by norm_num [TOTAL_SUPPLY, DECIMALS]⟩
                  · simp [headMintData]
                  · simp [destTokenData]
                  · rw [hm2, hm1, hvs, hvt]
                    norm_num [TOTAL_SUPPLY, DECIMALS]
                  · rw [ht1, hva, hvt]
                    norm_num [TOTAL_SUPPLY, DECIMALS]

/-- Witness for C1: the Scenario A account list with the honest collaborator. -/
theorem C1_exact_amount_on_success_witness :
    ∃ m t, headMintData (process_instruction specCollaborator happyAccounts).accounts = some m ∧
      destTokenData (process_instruction specCollaborator happyAccounts).accounts = some t ∧
      m.supply = TOTAL_SUPPLY * 10 ^ DECIMALS ∧
      t.amount = TOTAL_SUPPLY * 10 ^ DECIMALS ∧
      m.mint_authority = none ∧
      TOTAL_SUPPLY * 10 ^ DECIMALS = 500000000000000000 :=
  C1_exact_amount_on_success specCollaborator happyAccounts
    specCollaborator_mint_contract specCollaborator_revoke_contract rfl

/-- C2: once both delegated calls have succeeded, the controller re-reads the
mint; if the re-read mint still has a present authority the operation fails
with `MintAuthorityNotRevoked`, and it succeeds exactly when the re-read
authority is `none`. -/
theorem C2_revocation_postcondition (collab : Collaborator) (accounts : List AccountInfo)
    (v : Validated) (mint1 mint2 : Mint) (token1 : TokenAccount)
    (hv : validate accounts = Except.ok v)
    (hm : collab.mintTo v.mint_data v.token_data v.mint_authority.key
      v.total_supply_with_decimals = Except.ok (mint1, token1))
    (hr : collab.revokeMintAuthority mint1 v.mint_authority.key = Except.ok mint2) :
    (mint2.mint_authority.isSome = true →
      (process_instruction collab accounts).result =
        some CustomError.MintAuthorityNotRevoked.toProgramError) ∧
    ((process_instruction collab accounts).result = none ↔ mint2.mint_authority = none) := by
  rw [process_of_validate_ok collab accounts v hv]
  unfold executeTransition
  simp only [hm, hr, unpackMint]
  cases hma : mint2.mint_authority <;> simp [hma]

/-- Witness for C2: a collaborator whose revoke reports success without
clearing the authority is caught by the Step D check. -/
theorem C2_revocation_postcondition_witness :
    (process_instruction stubbornCollaborator happyAccounts).result =
      some CustomError.MintAuthorityNotRevoked.toProgramError :=
  (C2_revocation_postcondition stubbornCollaborator happyAccounts happyValidated
    mintedMint mintedMint mintedToken rfl rfl rfl).1 rfl

/-- C3: any input failing a precondition check (lib.rs lines 52-111: the
overflow check, account extraction, signatures, identity, ownership,
writability, mint state, destination owner, destination emptiness) makes
the operation return that check's error with no delegated call attempted
and every account, in particular the mint's supply and the destination's
amount, unchanged. -/
theorem C3_precondition_failure_atomicity (collab : Collaborator)
    (accounts : List AccountInfo) (e : ProgramError)
    (h : validate accounts = Except.error e) :
    process_instruction collab accounts = ⟨some e, accounts, []⟩ :=
  process_of_validate_error collab accounts e h

/-- Witness for C3: a payer that did not sign. -/
theorem C3_precondition_failure_atomicity_witness :
    process_instruction specCollaborator noSigAccounts =
      ⟨some ProgramError.MissingRequiredSignature, noSigAccounts, []⟩ :=
  C3_precondition_failure_atomicity specCollaborator noSigAccounts
    ProgramError.MissingRequiredSignature rfl

/-- C4: whenever both the mint authority and the payer have signed but their
keys differ, the operation fails with `MintAuthorityMismatch`, touching
nothing and attempting no delegated call. -/
theorem C4_authority_payer_mismatch (collab : Collaborator)
    (ma ta auth py tp : AccountInfo) (rest : List AccountInfo)
    (h1 : auth.is_signer = true) (h2 : py.is_signer = true) (hk : auth.key ≠ py.key) :
    process_instruction collab (ma :: ta :: auth :: py :: tp :: rest) =
      ⟨some CustomError.MintAuthorityMismatch.toProgramError,
       ma :: ta :: auth :: py :: tp :: rest, []⟩ :=
  process_of_validate_error _ _ _
    (validate_authority_mismatch ma ta auth py tp rest h1 h2 hk)

/-- Witness for C4: Scenario D, both roles validly signed but distinct keys. -/
theorem C4_authority_payer_mismatch_witness :
    process_instruction specCollaborator
        [mintAccount, destAccount, authorityAccount, otherPayerAccount, programAccount] =
      ⟨some CustomError.MintAuthorityMismatch.toProgramError,
       [mintAccount, destAccount, authorityAccount, otherPayerAccount, programAccount], []⟩ :=
  C4_authority_payer_mismatch specCollaborator mintAccount destAccount authorityAccount
    otherPayerAccount programAccount [] rfl rfl (by decide)

/-- C5: past the signature, identity, ownership and writability checks, a
mint that is not (initialized with the expected decimals, zero supply, no
freeze authority, and authority equal to the provided one) makes the
operation fail with `InvalidMintState`, with no mutation and no delegated
call. -/
theorem C5_invalid_mint_state (collab : Collaborator)
    (ma ta auth py tp : AccountInfo) (rest : List AccountInfo) (m : Mint)
    (h1 : auth.is_signer = true) (h2 : py.is_signer = true) (hk : auth.key = py.key)
    (ho1 : ma.owner = spl_token_id) (ho2 : ta.owner = spl_token_id)
    (hw1 : ma.is_writable = true) (hw2 : ta.is_writable = true)
    (hd : ma.data = AccountData.mintData m)
    (hm : ¬(m.is_initialized = true ∧ m.decimals = DECIMALS ∧ m.supply = 0 ∧
            m.freeze_authority = none ∧ m.mint_authority = some auth.key)) :
    process_instruction collab (ma :: ta :: auth :: py :: tp :: rest) =
      ⟨some CustomError.InvalidMintState.toProgramError,
       ma :: ta :: auth :: py :: tp :: rest, []⟩ := by
  have hb : mintStateOk m auth.key = false := by
    rw [← Bool.not_eq_true, mintStateOk_iff]
    exact hm
  exact process_of_validate_error _ _ _
    (validate_invalid_mint_state ma ta auth py tp rest m h1 h2 hk ho1 ho2 hw1 hw2 hd hb)

/-- Witness for C5: Scenario B, a mint with `supply = 100` at entry. -/
theorem C5_invalid_mint_state_witness :
    process_instruction specCollaborator
        [supply100MintAccount, destAccount, authorityAccount, payerAccount, programAccount] =
      ⟨some CustomError.InvalidMintState.toProgramError,
       [supply100MintAccount, destAccount, authorityAccount, payerAccount, programAccount],
       []⟩ :=
  C5_invalid_mint_state specCollaborator supply100MintAccount destAccount authorityAccount
    payerAccount programAccount [] supply100Mint rfl rfl rfl rfl rfl rfl rfl rfl (by decide)

/-- C6: past the mint-state check, a destination whose owner differs from the
payer fails with `TokenAccountOwnerMismatch`; otherwise a destination with a
wrong mint binding, nonzero amount, a delegate or a close authority fails
with `TokenAccountNotEmpty` — in both cases with no mutation and no
delegated call. -/
theorem C6_destination_checks (collab : Collaborator)
    (ma ta auth py tp : AccountInfo) (rest : List AccountInfo) (m : Mint) (t : TokenAccount)
    (h1 : auth.is_signer = true) (h2 : py.is_signer = true) (hk : auth.key = py.key)
    (ho1 : ma.owner = spl_token_id) (ho2 : ta.owner = spl_token_id)
    (hw1 : ma.is_writable = true) (hw2 : ta.is_writable = true)
    (hd : ma.data = AccountData.mintData m)
    (hm : m.is_initialized = true ∧ m.decimals = DECIMALS ∧ m.supply = 0 ∧
          m.freeze_authority = none ∧ m.mint_authority = some auth.key)
    (htd : ta.data = AccountData.tokenData t) :
    (t.owner ≠ py.key →
      process_instruction collab (ma :: ta :: auth :: py :: tp :: rest) =
        ⟨some CustomError.TokenAccountOwnerMismatch.toProgramError,
         ma :: ta :: auth :: py :: tp :: rest, []⟩) ∧
    (t.owner = py.key →
      ¬(t.mint = ma.key ∧ t.amount = 0 ∧ t.delegate = none ∧ t.close_authority = none) →
      process_instruction collab (ma :: ta :: auth :: py :: tp :: rest) =
        ⟨some CustomError.TokenAccountNotEmpty.toProgramError,
         ma :: ta :: auth :: py :: tp :: rest, []⟩) := by
  have hb : mintStateOk m auth.key = true := (mintStateOk_iff m auth.key).mpr hm
  constructor
  · intro hto
    exact process_of_validate_error _ _ _
      (validate_dest_owner_mismatch ma ta auth py tp rest m t h1 h2 hk ho1 ho2 hw1 hw2
        hd hb htd hto)
  · intro hto hts
    have hbt : tokenStateOk t ma.key = false := by
      rw [← Bool.not_eq_true, tokenStateOk_iff]
      exact hts
    exact process_of_validate_error _ _ _
      (validate_dest_not_empty ma ta auth py tp rest m t h1 h2 hk ho1 ho2 hw1 hw2
        hd hb htd hto hbt)

/-- Witness for C6: Scenario C, a destination carrying a delegate. -/
theorem C6_destination_checks_witness :
    process_instruction specCollaborator
        [mintAccount, delegatedDestAccount, authorityAccount, payerAccount, programAccount] =
      ⟨some CustomError.TokenAccountNotEmpty.toProgramError,
       [mintAccount, delegatedDestAccount, authorityAccount, payerAccount, programAccount],
       []⟩ :=
  (C6_destination_checks specCollaborator mintAccount delegatedDestAccount authorityAccount
    payerAccount programAccount [] happyMint delegatedToken rfl rfl rfl rfl rfl rfl rfl rfl
    (by decide) rfl).2 rfl (by decide)

/-- C7: the precondition checks run in source order with first-failure-wins:
each conjunct fixes the outcome of the earliest violated check while leaving
every later-checked condition unconstrained. -/
theorem C7_first_failure_wins (collab : Collaborator)
    (ma ta auth py tp : AccountInfo) (rest : List AccountInfo) :
    ((auth.is_signer = false ∨ py.is_signer = false) →
      (process_instruction collab (ma :: ta :: auth :: py :: tp :: rest)).result =
        some ProgramError.MissingRequiredSignature) ∧
    (auth.is_signer = true → py.is_signer = true → auth.key ≠ py.key →
      (process_instruction collab (ma :: ta :: auth :: py :: tp :: rest)).result =
        some CustomError.MintAuthorityMismatch.toProgramError) ∧
    (auth.is_signer = true → py.is_signer = true → auth.key = py.key →
      (ma.owner ≠ spl_token_id ∨ ta.owner ≠ spl_token_id) →
      (process_instruction collab (ma :: ta :: auth :: py :: tp :: rest)).result =
        some ProgramError.IllegalOwner) ∧
    (auth.is_signer = true → py.is_signer = true → auth.key = py.key →
      ma.owner = spl_token_id → ta.owner = spl_token_id →
      (ma.is_writable = false ∨ ta.is_writable = false) →
      (process_instruction collab (ma :: ta :: auth :: py :: tp :: rest)).result =
        some ProgramError.InvalidAccountData) ∧
    (auth.is_signer = true → py.is_signer = true → auth.key = py.key →
      ma.owner = spl_token_id → ta.owner = spl_token_id →
      ma.is_writable = true → ta.is_writable = true →
      ∀ m : Mint, ma.data = AccountData.mintData m → mintStateOk m auth.key = false →
      (process_instruction collab (ma :: ta :: auth :: py :: tp :: rest)).result =
        some CustomError.InvalidMintState.toProgramError) ∧
    (auth.is_signer = true → py.is_signer = true → auth.key = py.key →
      ma.owner = spl_token_id → ta.owner = spl_token_id →
      ma.is_writable = true → ta.is_writable = true →
      ∀ m : Mint, ma.data = AccountData.mintData m → mintStateOk m auth.key = true →
      ∀ t : TokenAccount, ta.data = AccountData.tokenData t → t.owner ≠ py.key →
      (process_instruction collab (ma :: ta :: auth :: py :: tp :: rest)).result =
        some CustomError.TokenAccountOwnerMismatch.toProgramError) ∧
    (auth.is_signer = true → py.is_signer = true → auth.key = py.key →
      ma.owner = spl_token_id → ta.owner = spl_token_id →
      ma.is_writable = true → ta.is_writable = true →
      ∀ m : Mint, ma.data = AccountData.mintData m → mintStateOk m auth.key = true →
      ∀ t : TokenAccount, ta.data = AccountData.tokenData t → t.owner = py.key →
      tokenStateOk t ma.key = false →
      (process_instruction collab (ma :: ta :: auth :: py :: tp :: rest)).result =
        some CustomError.TokenAccountNotEmpty.toProgramError) := by
  refine ⟨?_, ?_, ?_, ?_, ?_, ?_, ?_⟩
  · intro h
    rw [process_of_validate_error collab _ _ (validate_missing_sig ma ta auth py tp rest h)]
  · intro h1 h2 hk
    rw [process_of_validate_error collab _ _
      (validate_authority_mismatch ma ta auth py tp rest h1 h2 hk)]
  · intro h1 h2 hk ho
    rw [process_of_validate_error collab _ _
      (validate_illegal_owner ma ta auth py tp rest h1 h2 hk ho)]
  · intro h1 h2 hk ho1 ho2 hw
    rw [process_of_validate_error collab _ _
      (validate_not_writable ma ta auth py tp rest h1 h2 hk ho1 ho2 hw)]
  · intro h1 h2 hk ho1 ho2 hw1 hw2 m hd hm
    rw [process_of_validate_error collab _ _
      (validate_invalid_mint_state ma ta auth py tp rest m h1 h2 hk ho1 ho2 hw1 hw2 hd hm)]
  · intro h1 h2 hk ho1 ho2 hw1 hw2 m hd hm t htd hto
    rw [process_of_validate_error collab _ _
      (validate_dest_owner_mismatch ma ta auth py tp rest m t h1 h2 hk ho1 ho2 hw1 hw2
        hd hm htd hto)]
  · intro h1 h2 hk ho1 ho2 hw1 hw2 m hd hm t htd hto hts
    rw [process_of_validate_error collab _ _
      (validate_dest_not_empty ma ta auth py tp rest m t h1 h2 hk ho1 ho2 hw1 hw2
        hd hm htd hto hts)]

/-- Witness for C7: one doubly-violating input per dominance conjunct; in
each case the earlier check's error is the one returned. -/
theorem C7_first_failure_wins_witness :
    (process_instruction specCollaborator
        [foreignMintAccount, destAccount, unsignedAuthorityAccount, otherPayerAccount,
         programAccount]).result = some ProgramError.MissingRequiredSignature ∧
    (process_instruction specCollaborator
        [foreignMintAccount, destAccount, authorityAccount, otherPayerAccount,
         programAccount]).result = some CustomError.MintAuthorityMismatch.toProgramError ∧
    (process_instruction specCollaborator
        [foreignUnwritableMintAccount, destAccount, authorityAccount, payerAccount,
         programAccount]).result = some ProgramError.IllegalOwner ∧
    (process_instruction specCollaborator
        [unwritableSupply100MintAccount, destAccount, authorityAccount, payerAccount,
         programAccount]).result = some ProgramError.InvalidAccountData ∧
    (process_instruction specCollaborator
        [supply100MintAccount, otherOwnerDestAccount, authorityAccount, payerAccount,
         programAccount]).result = some CustomError.InvalidMintState.toProgramError ∧
    (process_instruction specCollaborator
        [mintAccount, otherOwnerDelegatedDest, authorityAccount, payerAccount,
         programAccount]).result = some CustomError.TokenAccountOwnerMismatch.toProgramError ∧
    (process_instruction specCollaborator
        [mintAccount, delegatedDestAccount, authorityAccount, payerAccount,
         programAccount]).result = some CustomError.TokenAccountNotEmpty.toProgramError := by
  refine ⟨?_, ?_, ?_, ?_, ?_, ?_, ?_⟩
  · exact (C7_first_failure_wins specCollaborator _ _ _ _ _ _).1 (Or.inl rfl)
  · exact (C7_first_failure_wins specCollaborator _ _ _ _ _ _).2.1 rfl rfl (by decide)
  · exact (C7_first_failure_wins specCollaborator _ _ _ _ _ _).2.2.1 rfl rfl rfl
      (Or.inl (by decide))
  · exact (C7_first_failure_wins specCollaborator _ _ _ _ _ _).2.2.2.1 rfl rfl rfl rfl rfl
      (Or.inl rfl)
  · exact (C7_first_failure_wins specCollaborator _ _ _ _ _ _).2.2.2.2.1 rfl rfl rfl rfl rfl
      rfl rfl supply100Mint rfl (by decide)
  · exact (C7_first_failure_wins specCollaborator _ _ _ _ _ _).2.2.2.2.2.1 rfl rfl rfl rfl
      rfl rfl rfl happyMint rfl (by decide) otherOwnerDelegatedToken rfl (by decide)
  · exact (C7_first_failure_wins specCollaborator _ _ _ _ _ _).2.2.2.2.2.2 rfl rfl rfl rfl
      rfl rfl rfl happyMint rfl (by decide) delegatedToken rfl rfl (by decide)

/-- C8: Step A computes the scaled supply with overflow-checked u64
multiplication — it fails with the overflow error exactly when the product
exceeds the u64 range — and with the fixed constants the product is
5 × 10^17, fits in a u64, and no validation path ever returns the overflow
error. -/
theorem C8_overflow_checked_supply :
    total_supply_calc TOTAL_SUPPLY = Except.ok 500000000000000000 ∧
    (∀ ts : Nat, U64_MAX < ts * pow_u64 10 DECIMALS →
      total_supply_calc ts = Except.error ProgramError.InvalidArgument) ∧
    (∀ (accounts : List AccountInfo) (e : ProgramError),
      validate accounts = Except.error e → e ≠ ProgramError.InvalidArgument) ∧
    TOTAL_SUPPLY * 10 ^ DECIMALS = 500000000000000000 ∧
    TOTAL_SUPPLY * 10 ^ DECIMALS ≤ U64_MAX := by
  refine ⟨rfl, ?_, ?_, by norm_num [TOTAL_SUPPLY, DECIMALS],
    by norm_num [TOTAL_SUPPLY, DECIMALS, U64_MAX]⟩
  · intro ts hlt
    unfold total_supply_calc checked_mul_u64
    rw [if_neg (by omega)]
  · intro accounts e h
    rw [validate_eq_validateAccounts] at h
    unfold validateAccounts at h
    split at h
    · split at h
      · injection h with h
        subst h
        decide
      split at h
      · injection h with h
        subst h
        decide
      split at h
      · injection h with h
        subst h
        decide
      split at h
      · injection h with h
        subst h
        decide
      split at h
      · rename_i e' he'
        injection h with h
        subst h
        rw [unpackMint_error_eq _ _ he']
        decide
      split at h
      · injection h with h
        subst h
        decide
      split at h
      · rename_i e' he'
        injection h with h
        subst h
        rw [unpackTokenAccount_error_eq _ _ he']
        decide
      split at h
      · injection h with h
        subst h
        decide
      split at h
      · injection h with h
        subst h
        decide
      · exact Except.noConfusion h
    · injection h with h
      subst h
      decide

/-- Witness for C8: an oversized multiplicand trips the overflow branch, and
a concrete validation failure returns a non-overflow error. -/
theorem C8_overflow_checked_supply_witness :
    total_supply_calc (2 ^ 64) = Except.error ProgramError.InvalidArgument ∧
    ProgramError.NotEnoughAccountKeys ≠ ProgramError.InvalidArgument :=
  ⟨C8_overflow_checked_supply.2.1 (2 ^ 64) (by decide),
   C8_overflow_checked_supply.2.2.1 [] ProgramError.NotEnoughAccountKeys rfl⟩

/-- C9: when the delegated mint call fails, the whole operation aborts with
that failure, the accounts are untouched, and the trace shows the revoke
call was never attempted. -/
theorem C9_no_revoke_after_failed_mint (collab : Collaborator)
    (accounts : List AccountInfo) (v : Validated) (e : ProgramError)
    (hv : validate accounts = Except.ok v)
    (hm : collab.mintTo v.mint_data v.token_data v.mint_authority.key
      v.total_supply_with_decimals = Except.error e) :
    process_instruction collab accounts =
      ⟨some e, accounts,
       [DelegatedCall.mintTo v.mint_account.key v.token_account.key
         v.mint_authority.key v.total_supply_with_decimals]⟩ := by
  rw [process_of_validate_ok collab accounts v hv]
  exact executeTransition_mint_fail collab accounts v e hm

/-- Witness for C9: a collaborator whose mint call fails on Scenario A. -/
theorem C9_no_revoke_after_failed_mint_witness :
    process_instruction failMintCollaborator happyAccounts =
      ⟨some (ProgramError.Custom 77), happyAccounts,
       [DelegatedCall.mintTo mintKey destKey authKey 500000000000000000]⟩ :=
  C9_no_revoke_after_failed_mint failMintCollaborator happyAccounts happyValidated
    (ProgramError.Custom 77) rfl rfl

/-- C10: fewer than five supplied accounts exhaust the account iterator, and
the operation fails with `NotEnoughAccountKeys` — whatever the signer flags
are — with no delegated call and all accounts unchanged. -/
theorem C10_not_enough_accounts (collab : Collaborator) (accounts : List AccountInfo)
    (h : accounts.length < 5) :
    process_instruction collab accounts =
      ⟨some ProgramError.NotEnoughAccountKeys, accounts, []⟩ := by
  apply process_of_validate_error
  rw [validate_eq_validateAccounts]
  unfold validateAccounts
  rcases accounts with _ | ⟨a, _ | ⟨b, _ | ⟨c, _ | ⟨d, _ | ⟨e, rest⟩⟩⟩⟩⟩
  · rfl
  · rfl
  · rfl
  · rfl
  · rfl
  · exfalso
    simp [List.length_cons] at h
    omega

/-- Witness for C10: a single supplied account. -/
theorem C10_not_enough_accounts_witness :
    process_instruction specCollaborator [mintAccount] =
      ⟨some ProgramError.NotEnoughAccountKeys, [mintAccount], []⟩ :=
  C10_not_enough_accounts specCollaborator [mintAccount] (by decide)
